import Mathlib

/-!
Shallow embedding of plottr/node/fitter_2.py: model discovery
(get_models_in_module, get_modules_in_pkg), user module registration
(FittingGui.add_user_module), option adoption and the processing stage
(FittingNode.fitting_process, fitting_options setter), and the live-update
signal wiring.  External collaborators (the lmfit engine, the DataDictBase
container, Qt signal delivery) are modelled by their interface contracts.
-/

namespace Fitter2

/-- Modelled from the spec: an lmfit Parameters object (the dataset container
library is external).  Rendered as an ordered association list from parameter
name to an opaque numeric payload; the fitting core only passes it through to
the engine. -/
abbrev LmParameters := List (String × Int)

/-- Modelled from the spec: the result object exposed by the fit engine
(lmfit result): a success flag, a best-fit array and a textual fit report. -/
structure FitResult where
  success : Bool
  best_fit : List Int
  fit_report : String

/-- Modelled from the spec: a fit model class.  In the source, constructing
`model(x, y)` and calling `.run(params).lmfit_result` yields the engine
result; this two-step call is modelled as one function from the two data
arrays and the parameters to the engine result. -/
structure FitModel where
  run : List Int → List Int → LmParameters → FitResult

/-- The FittingOptions dataclass of fitter_2.py: a model reference plus the
parameter constraints handed to the engine. -/
structure FittingOptions where
  model : FitModel
  parameters : LmParameters

/-- One named data field of a dataset: its values and its axis tags. -/
structure DataEntry where
  values : List Int
  axes : List String
deriving DecidableEq

/-- Modelled from the spec: the DataDictBase dataset container (its source is
not part of the embedded file; §6 of the spec gives its contract).  It exposes
axis names, dependent names, named data arrays, a metadata mapping, and the
reserved upstream-options metadata entry read by `dataIn.get` on the key used
for fitting options. -/
structure DataDict where
  axes : List String
  dependents : List String
  datavals : List (String × DataEntry)
  meta : List (String × String)
  fitting_opt_meta : Option FittingOptions

/-- Python-dict style assignment on an association list: replace the value in
place when the key is present, append a new entry otherwise. -/
def setAssoc {α : Type} (l : List (String × α)) (k : String) (v : α) :
    List (String × α) :=
  if l.any (fun p => p.1 == k) then
    l.map (fun p => if p.1 == k then (k, v) else p)
  else l ++ [(k, v)]

/-- The data_vals accessor of the dataset contract: the value array stored
under a name. -/
def DataDict.data_vals (d : DataDict) (n : String) : List Int :=
  ((d.datavals.find? (fun p => p.1 == n)).map (fun p => p.2.values)).getD []

/-- Assignment of a named result entry on the dataset, as in
`dataOut[k] = dict(values=..., axes=...)`. -/
def DataDict.setData (d : DataDict) (k : String) (e : DataEntry) : DataDict :=
  { d with datavals := setAssoc d.datavals k e }

/-- The add_meta operation of the dataset contract. -/
def DataDict.add_meta (d : DataDict) (k v : String) : DataDict :=
  { d with meta := setAssoc d.meta k v }

/-- Whether the dataset has a data field stored under the given name. -/
def DataDict.hasEntry (d : DataDict) (k : String) : Bool :=
  d.datavals.any (fun p => p.1 == k)

/-- Whether the dataset has a metadata entry stored under the given name. -/
def DataDict.hasMetaKey (d : DataDict) (k : String) : Bool :=
  d.meta.any (fun p => p.1 == k)

/-- A returned dataset together with its aliasing relative to the input
object: `original d` means the very input object was returned (as in
`return dict(dataOut=dataIn)`), `copy d` means a fresh copy produced by
`dataIn.copy()` (possibly modified afterwards) was returned. -/
inductive DataRef where
  | original (d : DataDict)
  | copy (d : DataDict)

/-- The dataset value carried by a returned reference. -/
def DataRef.data : DataRef → DataDict
  | .original d => d
  | .copy d => d

/-- Whether the returned dataset is a fresh copy rather than the input
object itself. -/
def DataRef.isCopy : DataRef → Bool
  | .original _ => false
  | .copy _ => true

/-- The engine invocation performed by fitting_process:
`fit = options.model(x, y); fit_result = fit.run(params=options.parameters)`
with `x` the first axis array and `y` the first dependent array. -/
def fitRunOn (o : FittingOptions) (d : DataDict) : FitResult :=
  o.model.run (d.data_vals (d.axes.headD ""))
    (d.data_vals (d.dependents.headD "")) o.parameters

/-- The tail of fitting_process once options are resolved: run the engine on
the input data; on success attach the best-fit array under key "fit" tagged
with the first axis name and the report under metadata key "info"; on
failure leave the output untouched. -/
def runFitStep (o : FittingOptions) (dIn dataOut : DataDict) : DataDict :=
  let axname := dIn.axes.headD ""
  let lm := fitRunOn o dIn
  if lm.success then
    (dataOut.setData "fit" ⟨lm.best_fit, [axname]⟩).add_meta "info" lm.fit_report
  else dataOut

/-- FittingNode.fitting_process.  Takes the node's current stored options and
the incoming dataset; returns the stored options after the call, the list of
payloads emitted on the default_fitting_options signal during the call, and
the returned dataset (with its aliasing).  Mirrors the source line by line:
`None` input returns `None`; more than one axis or dependent returns the
input object itself; otherwise the input is copied, upstream options are
adopted (with a signal emission) when the stored options are unset, and the
fit is run whenever options are available after that resolution. -/
def fitting_process (fitting_options : Option FittingOptions)
    (dataIn : Option DataDict) :
    Option FittingOptions × List FittingOptions × Option DataRef :=
  match dataIn with
  | none => (fitting_options, [], none)
  | some dIn =>
    if 1 < dIn.axes.length ∨ 1 < dIn.dependents.length then
      (fitting_options, [], some (.original dIn))
    else
      let dataIn_opt := dIn.fitting_opt_meta
      let dataOut := dIn
      match fitting_options with
      | none =>
        match dataIn_opt with
        | some opt => (some opt, [opt], some (.copy (runFitStep opt dIn dataOut)))
        | none => (none, [], some (.copy dataOut))
      | some opt => (some opt, [], some (.copy (runFitStep opt dIn dataOut)))

/-! ### Option provenance: the node plus the gui fields it drives -/

/-- The joint state of FittingNode and the provenance-related FittingGui
fields: the node's stored `_fitting_options`, the options currently presented
by the gui widgets, and the gui's `input_options` record of upstream-adopted
options. -/
structure SysState where
  node_opts : Option FittingOptions
  gui_shown : Option FittingOptions
  input_options : Option FittingOptions

/-- FittingGui.fittingOptionSetter.  Modelled from the spec: the concrete
widget tree it drives (combo box, model list, parameter table) is presentation
layer, abstracted here into the single `gui_shown` field.  A `None` argument
is ignored (early return in the source). -/
def fittingOptionSetter (st : SysState) (o : Option FittingOptions) : SysState :=
  match o with
  | none => st
  | some opt => { st with gui_shown := some opt }

/-- FittingGui.setDefaultFit: apply the setter, then record the options as
`input_options` only when no input options were recorded before. -/
def setDefaultFit (st : SysState) (o : FittingOptions) : SysState :=
  let st1 := fittingOptionSetter st (some o)
  match st1.input_options with
  | none => { st1 with input_options := some o }
  | some _ => st1

/-- The `reloadInputOption` slot wired to the "Reload Input Option" button:
it re-applies the recorded input options to the gui. -/
def reloadInputOption (st : SysState) : SysState :=
  fittingOptionSetter st st.input_options

/-- External events driving the node/gui pair: arrival of a dataset at the
node, the reload button, clearing the node options through the
`fitting_options` property setter (an allowed `None` assignment), and an
explicit user choice of options.  The last one is modelled from the spec
(§4.4): a user edit replaces the stored options and is reflected in the gui;
the plumbing that carries it from the widgets to the node property lives in
the node framework, not in the embedded file. -/
inductive Event where
  | arrive (d : DataDict)
  | reload
  | clearNodeOptions
  | userSet (o : FittingOptions)

/-- One event step of the joint state.  Dataset arrival runs
`fitting_process` on the node's stored options; every payload emitted on the
`default_fitting_options` signal is delivered to `setDefaultFit` (the
connection made in `setupUi`).  Returns the new state and the emitted
payloads. -/
def step (st : SysState) : Event → SysState × List FittingOptions
  | .arrive d =>
    let r := fitting_process st.node_opts (some d)
    let st1 := { st with node_opts := r.1 }
    (r.2.1.foldl setDefaultFit st1, r.2.1)
  | .reload => (reloadInputOption st, [])
  | .clearNodeOptions => ({ st with node_opts := none }, [])
  | .userSet o => ({ st with node_opts := some o, gui_shown := some o }, [])

/-- Run a sequence of events, collecting every upstream-options payload
emitted along the way (in order). -/
def runTrace (st : SysState) : List Event → SysState × List FittingOptions
  | [] => (st, [])
  | e :: es =>
    let r1 := step st e
    let r2 := runTrace r1.1 es
    (r2.1, r1.2 ++ r2.2)

/-! ### Model discovery -/

/-- A Python class object as far as `is_Fit_subclass` inspects it: whether it
is a subclass of the Fit base type, and whether it is the Fit base type
itself. -/
structure PyClass where
  subclassOfFit : Bool
  isFitBase : Bool
deriving DecidableEq

/-- A member of a module namespace: a class object or any non-class value
(function, constant, ...).  `issubclass` on a non-class raises TypeError,
which the source catches. -/
inductive PyMember where
  | cls (c : PyClass)
  | nonclass
deriving DecidableEq

/-- The `is_Fit_subclass` predicate of get_models_in_module:
`issubclass(cls, Fit) and cls is not Fit`, with the TypeError raised on
non-classes caught and turned into False. -/
def is_Fit_subclass : PyMember → Bool
  | .cls c => c.subclassOfFit && !c.isFitBase
  | .nonclass => false

/-- A module namespace as `inspect.getmembers` walks it: named members with
distinct names. -/
abbrev ModuleMembers := List (String × PyMember)

/-- get_models_in_module: the members of the (re-imported) module that
satisfy `is_Fit_subclass`, keyed by their own member name.  The
`del sys.modules` / `import_module` dance only refreshes the namespace and is
absorbed into taking the module contents as given. -/
def get_models_in_module (m : ModuleMembers) : ModuleMembers :=
  m.filter (fun p => is_Fit_subclass p.2)

/-- get_modules_in_pkg: every importable unit of the package except the
internal base unit "fitter_base". -/
def get_modules_in_pkg (pkg : List (String × ModuleMembers)) :
    List (String × ModuleMembers) :=
  pkg.filter (fun p => p.1 != "fitter_base")

/-! ### User module registration -/

/-- A loaded Python module as add_user_module inspects it: its `__file__`
attribute. -/
structure UserModule where
  file : String
deriving DecidableEq

/-- The registry state touched by add_user_module: the `fitting_modules`
mapping (insertion-ordered), the combo-box items and the current combo
selection. -/
structure ModState where
  fitting_modules : List (String × UserModule)
  combo_items : List String
  combo_current : String

/-- Python `s[-3:]`: the last three characters (the whole string when
shorter). -/
def last3 (s : String) : String := s.drop (s.length - 3)

/-- Python `s[:-3]`: everything but the last three characters. -/
def dropLast3 (s : String) : String := s.take (s.length - 3)

/-- Python `str.split('/')` on the character list of a string (structural
recursion, so that it evaluates by reduction). -/
def splitSlash : List Char → List (List Char)
  | [] => [[]]
  | c :: rest =>
    let r := splitSlash rest
    if c = '/' then [] :: r
    else (c :: r.headD []) :: r.tail

/-- The path components of the chosen file: `mod_file.split('/')`. -/
def pathParts (f : String) : List String :=
  (splitSlash f.toList).map List.asString

/-- The module name derived from the chosen file:
`mod_file.split('/')[-1][:-3]`. -/
def derivedName (f : String) : String :=
  dropLast3 ((pathParts f).getLastD "")

/-- The directory string derived from the chosen file:
`'\\'.join(mod_file.split('/')[:-1])`. -/
def derivedDir (f : String) : String :=
  String.intercalate "\\" (pathParts f).dropLast

/-- FittingGui.add_user_module.  The file-dialog result is the `mod_file`
argument; `import_module` is the external `importer` oracle taking the module
name and directory.  Returns the new registry state and the error raised, if
any (this handler itself raises none: a path that is not a Python file is
dismissed by an early return).  On a name collision: if the loaded module's
file equals the file of any registered module the call only selects the
existing entry; otherwise the module is registered under the name suffixed
with the derived directory in parentheses. -/
def add_user_module (st : ModState) (mod_file : Option String)
    (importer : String → String → UserModule) : ModState × Option String :=
  match mod_file with
  | none => (st, none)
  | some f =>
    if last3 f != ".py" then (st, none)
    else
      let mod_name := derivedName f
      let mod_dir := derivedDir f
      let user_module := importer mod_name mod_dir
      if mod_name ∈ st.fitting_modules.map Prod.fst then
        if st.fitting_modules.any (fun p => p.2.file == user_module.file) then
          ({ st with combo_current := mod_name }, none)
        else
          let mod_name2 := mod_name ++ "(" ++ mod_dir ++ ")"
          ({ fitting_modules := setAssoc st.fitting_modules mod_name2 user_module,
             combo_items := st.combo_items ++ [mod_name2],
             combo_current := mod_name2 }, none)
      else
        ({ fitting_modules := setAssoc st.fitting_modules mod_name user_module,
           combo_items := st.combo_items ++ [mod_name],
           combo_current := mod_name }, none)

/-! ### Live-update signal wiring -/

/-- The wiring state relevant to live update: the change signals of the
current parameter-table widgets (four per row, identified by numbers), the
multiset of connections from those signals to `_signalAllOptions`, and
whether a model is currently selected in the model list. -/
structure WireState where
  param_signals : List Nat
  connected : List Nat
  model_selected : Bool

/-- FittingGui.changeParamLiveUpdate: connect every parameter signal to
`_signalAllOptions`, or disconnect all of them.  Qt `connect` adds a
connection each time; `disconnect` removes every connection between the
signal and the slot (the TypeError raised when none exists is caught). -/
def changeParamLiveUpdate (st : WireState) (enable : Bool) : WireState :=
  if enable then { st with connected := st.connected ++ st.param_signals }
  else { st with connected :=
    st.connected.filter (fun s => !(st.param_signals.contains s)) }

/-- The number of aggregated options-changed events raised by one edit of the
widget behind signal `s`: the signal fires once, each existing connection
invokes `_signalAllOptions` once, and each invocation emits `signalAllOptions`
exactly when a model is selected.  Modelled from the spec: the node framework
(not in the embedded file) issues one `process` call per such event (§4.5). -/
def editFieldEvents (st : WireState) (s : Nat) : Nat :=
  if st.model_selected then st.connected.count s else 0

/-- The total number of aggregated options-changed events raised by a
succession of field edits. -/
def editFieldsEvents (st : WireState) : List Nat → Nat
  | [] => 0
  | s :: rest => editFieldEvents st s + editFieldsEvents st rest

/-! ### The fitting_options property setter -/

/-- A Python value assigned to the `fitting_options` property: a
FittingOptions instance, None, or any other object. -/
inductive PyValue where
  | fopts (o : FittingOptions)
  | pynone
  | other (tag : String)

/-- The `isinstance(opt, FittingOptions) or opt is None` test of the
setter. -/
def isFittingOptionsInstanceOrNone : PyValue → Bool
  | .fopts _ => true
  | .pynone => true
  | .other _ => false

/-- The stored form of an accepted value. -/
def storedOptionOf : PyValue → Option FittingOptions
  | .fopts o => some o
  | _ => none

/-- The body of the FittingNode.fitting_options setter: store the value when
it is a FittingOptions instance or None, otherwise raise TypeError and leave
the stored options as they were.  Returns the stored options after the call
and the raised error, if any.  (The updateOption decorator wrapping it lives
in the node framework, outside the embedded file.) -/
def fitting_options_setter (prev : Option FittingOptions) (v : PyValue) :
    Option FittingOptions × Option String :=
  match v with
  | .fopts o => (some o, none)
  | .pynone => (none, none)
  | .other _ => (prev, some "TypeError")

/-! ### Concrete example values used by witnesses and counterexamples -/

/-- An engine that always fails to converge. -/
def failModel : FitModel :=
  ⟨fun _ _ _ => ⟨false, [], "did not converge"⟩⟩

/-- An engine that always succeeds, returning the x array as best fit. -/
def okModel : FitModel :=
  ⟨fun x _ _ => ⟨true, x, "fit report"⟩⟩

/-- Example options A (upstream payload in the C3 trace). -/
def optA : FittingOptions := ⟨failModel, [("p", 1)]⟩

/-- Example options B, differing from A in the parameters. -/
def optB : FittingOptions := ⟨failModel, [("p", 2)]⟩

/-- Example options U, a user override distinct from A and B. -/
def optU : FittingOptions := ⟨failModel, [("p", 3)]⟩

/-- A single-axis single-dependent dataset carrying upstream options A. -/
def dsA : DataDict :=
  ⟨["x"], ["y"], [("x", ⟨[0, 1], []⟩), ("y", ⟨[1, 3], ["x"]⟩)], [], some optA⟩

/-- A single-axis single-dependent dataset carrying upstream options B. -/
def dsB : DataDict :=
  ⟨["x"], ["y"], [("x", ⟨[0, 1], []⟩), ("y", ⟨[1, 3], ["x"]⟩)], [], some optB⟩

/-- A single-axis single-dependent dataset whose upstream options carry an
always-succeeding engine. -/
def dsOk : DataDict :=
  ⟨["x"], ["y"], [("x", ⟨[0, 1, 2], []⟩), ("y", ⟨[1, 3, 5], ["x"]⟩)], [],
   some ⟨okModel, [("p", 1)]⟩⟩

/-- A dataset with two axes and one dependent, no upstream options. -/
def dsMulti : DataDict :=
  ⟨["x", "y"], ["z"], [("x", ⟨[0], []⟩), ("y", ⟨[0], []⟩),
    ("z", ⟨[1], ["x", "y"]⟩)], [], none⟩

/-- The all-unset joint state at startup. -/
def sysStart : SysState := ⟨none, none, none⟩

/-- The C3 scenario: adopt A, clear the node options through the property
setter, adopt B, user override U, then press reload. -/
def exTrace : List Event :=
  [.arrive dsA, .clearNodeOptions, .arrive dsB, .userSet optU, .reload]

/-- Wiring state with one parameter row (four signals) after live update
connected each signal once, a model being selected. -/
def wireLive : WireState :=
  changeParamLiveUpdate ⟨[0, 1, 2, 3], [], true⟩ true

/-- Options whose engine always succeeds. -/
def optOk : FittingOptions := ⟨okModel, [("p", 1)]⟩

/-- A joint state in which options are already set everywhere (provenance
FromUpstream with payload A). -/
def sysSet : SysState := ⟨some optA, some optA, some optA⟩

/-- An example fitters module namespace: one concrete model class, the Fit
base class (imported), and a non-class member. -/
def mCos : ModuleMembers :=
  [("Cosine", .cls ⟨true, false⟩), ("Fit", .cls ⟨true, true⟩), ("np", .nonclass)]

/-- An example fitters package containing the internal base unit and one
model module. -/
def pkgEx : List (String × ModuleMembers) :=
  [("fitter_base", [("Fit", .cls ⟨true, true⟩)]), ("generic_functions", mCos)]

/-- A registry holding one built-in module. -/
def modStart : ModState :=
  ⟨[("generic_functions", ⟨"plottr/analyzer/fitters/generic_functions.py"⟩)],
   ["generic_functions"], "generic_functions"⟩

/-- A registry holding one user module named X. -/
def modsX : ModState := ⟨[("X", ⟨"q/X.py"⟩)], ["X"], "X"⟩

/-- An importer oracle never consulted on the early-return paths. -/
def importNever : String → String → UserModule := fun _ _ => ⟨""⟩

/-- An importer resolving to the very file already registered under X. -/
def importSame : String → String → UserModule := fun _ _ => ⟨"q/X.py"⟩

/-- An importer resolving to a fresh file not registered yet. -/
def importOther : String → String → UserModule := fun _ _ => ⟨"d/X.py"⟩

/-! ## Helper lemmas -/

/-- fitting_process never changes already-set options. -/
theorem fitting_process_fst_some (o : FittingOptions) (d : Option DataDict) :
    (fitting_process (some o) d).1 = some o := by
  cases d with
  | none => rfl
  | some dIn =>
    by_cases h : 1 < dIn.axes.length ∨ 1 < dIn.dependents.length
    · simp [fitting_process, h]
    · simp [fitting_process, h]

/-- fitting_process emits nothing when options are already set. -/
theorem fitting_process_emits_nil (o : FittingOptions) (d : Option DataDict) :
    (fitting_process (some o) d).2.1 = [] := by
  cases d with
  | none => rfl
  | some dIn =>
    by_cases h : 1 < dIn.axes.length ∨ 1 < dIn.dependents.length
    · simp [fitting_process, h]
    · simp [fitting_process, h]

/-- setDefaultFit never touches the node's stored options. -/
theorem setDefaultFit_node_opts (st : SysState) (o : FittingOptions) :
    (setDefaultFit st o).node_opts = st.node_opts := by
  cases h : st.input_options <;> simp [setDefaultFit, fittingOptionSetter, h]

/-- setDefaultFit keeps input_options once they are recorded. -/
theorem setDefaultFit_input_options_some (st : SysState) (o oi : FittingOptions)
    (h : st.input_options = some oi) :
    (setDefaultFit st o).input_options = some oi := by
  simp [setDefaultFit, fittingOptionSetter, h]

/-- Delivering any sequence of signal payloads keeps recorded
input_options. -/
theorem foldl_setDefaultFit_input_options (l : List FittingOptions)
    (st : SysState) (oi : FittingOptions) (h : st.input_options = some oi) :
    (l.foldl setDefaultFit st).input_options = some oi := by
  induction l generalizing st with
  | nil => simpa using h
  | cons a as ih => exact ih _ (setDefaultFit_input_options_some st a oi h)

/-- Replacing the value under a key keeps the key list unchanged. -/
theorem map_fst_replace {α : Type} (l : List (String × α)) (k : String) (v : α) :
    (l.map (fun p => if p.1 == k then (k, v) else p)).map Prod.fst
      = l.map Prod.fst := by
  induction l with
  | nil => rfl
  | cons a as ih =>
    simp only [List.map_cons, ih]
    by_cases hc : a.1 == k
    · have h1 : a.1 = k := by simpa using hc
      simp [hc, h1]
    · simp [hc]

/-- Membership in the key list after a dict-style assignment. -/
theorem setAssoc_map_fst {α : Type} (l : List (String × α)) (k : String)
    (v : α) (k2 : String) :
    k2 ∈ (setAssoc l k v).map Prod.fst ↔ (k2 ∈ l.map Prod.fst ∨ k2 = k) := by
  unfold setAssoc
  split
  next hany =>
    rw [map_fst_replace]
    constructor
    · exact fun h => Or.inl h
    · rintro (h | h)
      · exact h
      · subst h
        rcases List.any_eq_true.mp hany with ⟨a, ha, hk⟩
        have h2 : a.1 = k2 := by simpa using hk
        exact h2 ▸ List.mem_map_of_mem Prod.fst ha
  next hany =>
    simp [List.mem_append]

/-- Characterization of the is_Fit_subclass predicate. -/
theorem is_Fit_subclass_iff (mem : PyMember) :
    is_Fit_subclass mem = true ↔
      ∃ c, mem = PyMember.cls c ∧ c.subclassOfFit = true ∧ c.isFitBase = false := by
  cases mem with
  | cls c => simp [is_Fit_subclass]
  | nonclass => simp [is_Fit_subclass]

/-! ## Claim theorems -/

/-- C1 counterexample: on a single-axis single-dependent dataset carrying
upstream options, with the node's options unset, fitting_process does run a
fit on that same invocation — here the engine succeeds, so the returned copy
carries a "fit" array and an "info" metadata entry, contrary to the claim
that neither is added on the adoption call. -/
theorem C1_counterexample :
    (fitting_process none (some dsOk)).2.2.map
        (fun r => (r.data.hasEntry "fit", r.data.hasMetaKey "info"))
      = some (true, true) := rfl

/-- C1 (amended): with the node's options unset and the input (single axis,
single dependent) carrying upstream options, fitting_process adopts the
upstream options as the active options and notifies observers, but then runs
the fit with the adopted options on this same invocation: the returned copy
is the result of the fit step (carrying "fit" and "info" when the engine
succeeds, the plain pass-through copy when it fails). -/
theorem C1_upstream_adoption_runs_fit (d : DataDict) (o : FittingOptions)
    (a : String) (hax : d.axes = [a]) (hdep : d.dependents.length = 1)
    (hopt : d.fitting_opt_meta = some o) :
    fitting_process none (some d) =
      (some o, [o], some (.copy (runFitStep o d d))) := by
  simp [fitting_process, hax, hdep, hopt]

/-- C1 witness: the amended statement at a concrete dataset and options. -/
theorem C1_witness :
    fitting_process none (some dsA) =
      (some optA, [optA], some (.copy (runFitStep optA dsA dsA))) :=
  C1_upstream_adoption_runs_fit dsA optA "x" rfl rfl rfl

/-- C2 counterexample: on a dataset with two axes, fitting_process returns
the input dataset object itself (the aliasing flag is false), not a copy,
contrary to the claim that the returned dataset is a copy. -/
theorem C2_counterexample :
    (fitting_process none (some dsMulti)).2.2.map DataRef.isCopy = some false ∧
    (fitting_process none (some dsMulti)).2.2 = some (.original dsMulti) :=
  ⟨rfl, rfl⟩

/-- C2 (amended): for every input dataset with more than one axis or more
than one dependent, and for every value of the current options, the stage
returns the input dataset object itself, unchanged (equal to the input, no
"fit" array and no "info" metadata added), and leaves the stored options and
observers untouched. -/
theorem C2_multidim_passthrough_same_object (opts : Option FittingOptions)
    (d : DataDict) (h : 1 < d.axes.length ∨ 1 < d.dependents.length) :
    fitting_process opts (some d) = (opts, [], some (.original d)) := by
  simp [fitting_process, h]

/-- C2 witness: the amended statement at a concrete two-axis dataset. -/
theorem C2_witness :
    fitting_process none (some dsMulti) = (none, [], some (.original dsMulti)) :=
  C2_multidim_passthrough_same_object none dsMulti (by decide)

/-- C3 counterexample: along the trace adopt A, clear the node options,
adopt B, user override U, reload — the most recently upstream-supplied
options are B, yet after the reload the gui presents A (input_options keeps
only the first adoption) and the node still stores the override U; neither
equals B. -/
theorem C3_counterexample :
    (runTrace sysStart exTrace).2.getLast? = some optB ∧
    (runTrace sysStart exTrace).1.gui_shown = some optA ∧
    (runTrace sysStart exTrace).1.node_opts = some optU ∧
    optA ≠ optB ∧ optU ≠ optB := by
  refine ⟨rfl, rfl, rfl, ?_, ?_⟩ <;>
    exact fun h => absurd (congrArg FittingOptions.parameters h) (by decide)

/-- C3 (amended): once the active options are set and input options are
recorded, dataset arrival never changes the node's active options; an
explicit reload sets the gui to the recorded input options — which are the
first upstream-adopted options, never updated afterwards — and leaves the
node's active options unchanged; no event replaces recorded input
options. -/
theorem C3_provenance (st : SysState) (o oi : FittingOptions) (d : DataDict)
    (e : Event) (h1 : st.node_opts = some o)
    (h2 : st.input_options = some oi) :
    (step st (.arrive d)).1.node_opts = some o ∧
    (step st .reload).1.gui_shown = some oi ∧
    (step st .reload).1.node_opts = some o ∧
    (step st e).1.input_options = some oi := by
  have hnil := fitting_process_emits_nil o (some d)
  have hfst := fitting_process_fst_some o (some d)
  refine ⟨?_, ?_, ?_, ?_⟩
  · simp [step, h1, hnil, hfst]
  · simp [step, reloadInputOption, fittingOptionSetter, h2]
  · simp [step, reloadInputOption, fittingOptionSetter, h2, h1]
  · cases e with
    | arrive d2 =>
      have hnil2 := fitting_process_emits_nil o (some d2)
      simp [step, h1, hnil2, h2]
    | reload => simp [step, reloadInputOption, fittingOptionSetter, h2]
    | clearNodeOptions => simp [step, h2]
    | userSet o2 => simp [step, h2]

/-- C3 witness: the amended statement at a concrete already-set state. -/
theorem C3_witness :
    (step sysSet (.arrive dsB)).1.node_opts = some optA ∧
    (step sysSet .reload).1.gui_shown = some optA ∧
    (step sysSet .reload).1.node_opts = some optA ∧
    (step sysSet .reload).1.input_options = some optA :=
  C3_provenance sysSet optA optA dsB .reload rfl rfl

/-- C4: on a single-axis single-dependent input with options set whose
engine reports non-success, fitting_process returns the pass-through copy of
the input, with no "fit" array and no "info" metadata added, the options
unchanged and nothing emitted; being a total function of the embedded code
path, no exception escapes. -/
theorem C4_failure_passthrough (opts : FittingOptions) (d : DataDict)
    (hax : d.axes.length = 1) (hdep : d.dependents.length = 1)
    (hfail : (fitRunOn opts d).success = false) :
    fitting_process (some opts) (some d) = (some opts, [], some (.copy d)) := by
  simp [fitting_process, hax, hdep, runFitStep, hfail]

/-- C4 witness: the failing engine at a concrete dataset. -/
theorem C4_witness :
    dsA.axes.length = 1 ∧ dsA.dependents.length = 1 ∧
    (fitRunOn optA dsA).success = false ∧
    fitting_process (some optA) (some dsA) =
      (some optA, [], some (.copy dsA)) :=
  ⟨rfl, rfl, rfl, C4_failure_passthrough optA dsA rfl rfl rfl⟩

/-- C5: on a single-axis single-dependent input with options set whose
engine succeeds, fitting_process returns a copy of the input to which the
best-fit array is attached under key "fit" tagged with the input's axis name
and the textual report is attached under metadata key "info"; the input
value itself appears unmodified inside the returned copy. -/
theorem C5_success_attaches_fit (opts : FittingOptions) (d : DataDict)
    (a : String) (hax : d.axes = [a]) (hdep : d.dependents.length = 1)
    (hsucc : (fitRunOn opts d).success = true) :
    fitting_process (some opts) (some d) =
      (some opts, [],
       some (.copy ((d.setData "fit" ⟨(fitRunOn opts d).best_fit, [a]⟩).add_meta
          "info" (fitRunOn opts d).fit_report))) := by
  simp [fitting_process, hax, hdep, runFitStep, hsucc]

/-- C5 witness: the succeeding engine at a concrete dataset. -/
theorem C5_witness :
    dsOk.axes = ["x"] ∧ (fitRunOn optOk dsOk).success = true ∧
    fitting_process (some optOk) (some dsOk) =
      (some optOk, [],
       some (.copy ((dsOk.setData "fit"
          ⟨(fitRunOn optOk dsOk).best_fit, ["x"]⟩).add_meta
          "info" (fitRunOn optOk dsOk).fit_report))) :=
  ⟨rfl, rfl, C5_success_attaches_fit optOk dsOk "x" rfl rfl rfl⟩

/-- C6: discovery over a module namespace with distinct member names returns
exactly the members that are Fit subclasses other than the Fit base type
itself, keyed by their own name (one descriptor each, no duplicates);
non-class members and the base type are never included, and package
enumeration never lists the internal base unit "fitter_base". -/
theorem C6_discovery (m : ModuleMembers) (pkg : List (String × ModuleMembers))
    (hnd : (m.map Prod.fst).Nodup) :
    (∀ n mem, (n, mem) ∈ get_models_in_module m ↔
        ((n, mem) ∈ m ∧ ∃ c, mem = PyMember.cls c ∧
          c.subclassOfFit = true ∧ c.isFitBase = false)) ∧
    ((get_models_in_module m).map Prod.fst).Nodup ∧
    (∀ nm, nm ∈ (get_modules_in_pkg pkg).map Prod.fst → nm ≠ "fitter_base") := by
  refine ⟨?_, ?_, ?_⟩
  · intro n mem
    rw [get_models_in_module, List.mem_filter, is_Fit_subclass_iff]
  · exact hnd.sublist ((List.filter_sublist m).map Prod.fst)
  · intro nm hm
    rcases List.mem_map.mp hm with ⟨p, hp, hfst⟩
    have hne : p.1 != "fitter_base" := (List.mem_filter.mp hp).2
    exact hfst ▸ bne_iff_ne.mp hne

/-- C6 witness: a concrete model class is discovered, and the base unit is
excluded from a concrete package enumeration. -/
theorem C6_witness :
    (("Cosine", PyMember.cls ⟨true, false⟩) ∈ get_models_in_module mCos) ∧
    ("fitter_base" ∈ (get_modules_in_pkg pkgEx).map Prod.fst → False) :=
  ⟨((C6_discovery mCos pkgEx (by decide)).1 _ _).mpr
      ⟨by decide, ⟨⟨true, false⟩, rfl, rfl, rfl⟩⟩,
   fun h => (C6_discovery mCos pkgEx (by decide)).2.2 _ h rfl⟩

/-- C7 counterexample: adding a path that is not a Python file returns
successfully with no error raised and the registry unchanged, contrary to
the claim that the call fails with InvalidSourceError. -/
theorem C7_counterexample :
    add_user_module modStart (some "/home/u/notes.txt") importNever
      = (modStart, none) := rfl

/-- C7 (amended): for every user-supplied path that is not a Python file,
add_user_module is silently ignored: the handler returns immediately with no
error raised and no registry state change (no source entry added, no module
list change). -/
theorem C7_invalid_path_silently_ignored (st : ModState) (f : String)
    (importer : String → String → UserModule) (h : last3 f ≠ ".py") :
    add_user_module st (some f) importer = (st, none) := by
  have hb : (last3 f != ".py") = true := bne_iff_ne.mpr h
  simp [add_user_module, hb]

/-- C7 witness: the amended statement at a concrete non-Python path. -/
theorem C7_witness :
    add_user_module modStart (some "/home/u/README.md") importNever
      = (modStart, none) :=
  C7_invalid_path_silently_ignored modStart "/home/u/README.md" importNever
    (by decide)

/-- C8: when a user source is added whose derived name equals a registered
source's name, then if the loaded module resolves to the same underlying
file as a registered source the call is a no-op on the registry that selects
the existing entry; otherwise the module is registered under the
disambiguated name combining the name with its directory of origin, and both
the original name and the disambiguated name remain addressable. -/
theorem C8_name_collision (st : ModState) (f : String)
    (imp : String → String → UserModule) (hpy : last3 f = ".py")
    (hname : derivedName f ∈ st.fitting_modules.map Prod.fst) :
    (st.fitting_modules.any
        (fun p => p.2.file == (imp (derivedName f) (derivedDir f)).file) = true →
      add_user_module st (some f) imp
        = ({ st with combo_current := derivedName f }, none)) ∧
    (st.fitting_modules.any
        (fun p => p.2.file == (imp (derivedName f) (derivedDir f)).file) = false →
      (add_user_module st (some f) imp).1.fitting_modules =
        setAssoc st.fitting_modules
          (derivedName f ++ "(" ++ derivedDir f ++ ")")
          (imp (derivedName f) (derivedDir f)) ∧
      derivedName f ∈
        ((add_user_module st (some f) imp).1.fitting_modules.map Prod.fst) ∧
      (derivedName f ++ "(" ++ derivedDir f ++ ")") ∈
        ((add_user_module st (some f) imp).1.fitting_modules.map Prod.fst)) := by
  constructor
  · intro hany
    simp [add_user_module, hpy, hname, hany]
  · intro hnone
    have hmods : (add_user_module st (some f) imp).1.fitting_modules =
        setAssoc st.fitting_modules
          (derivedName f ++ "(" ++ derivedDir f ++ ")")
          (imp (derivedName f) (derivedDir f)) := by
      simp [add_user_module, hpy, hname, hnone]
    refine ⟨hmods, ?_, ?_⟩
    · rw [hmods, setAssoc_map_fst]
      exact Or.inl hname
    · rw [hmods, setAssoc_map_fst]
      exact Or.inr rfl

/-- C8 witness: both collision outcomes at a concrete registry — a same-file
load is a registry no-op selecting X, a different-file load registers
X(directory) with both names addressable. -/
theorem C8_witness :
    add_user_module modsX (some "d/X.py") importSame
      = ({ modsX with combo_current := derivedName "d/X.py" }, none) ∧
    (add_user_module modsX (some "d/X.py") importOther).1.fitting_modules =
      setAssoc modsX.fitting_modules
        (derivedName "d/X.py" ++ "(" ++ derivedDir "d/X.py" ++ ")")
        (importOther (derivedName "d/X.py") (derivedDir "d/X.py")) ∧
    derivedName "d/X.py" ∈
      ((add_user_module modsX (some "d/X.py") importOther).1.fitting_modules.map
        Prod.fst) ∧
    (derivedName "d/X.py" ++ "(" ++ derivedDir "d/X.py" ++ ")") ∈
      ((add_user_module modsX (some "d/X.py") importOther).1.fitting_modules.map
        Prod.fst) := by
  have ha := C8_name_collision modsX "d/X.py" importSame (by decide) (by decide)
  have hb := C8_name_collision modsX "d/X.py" importOther (by decide) (by decide)
  exact ⟨ha.1 (by decide), (hb.2 (by decide)).1, (hb.2 (by decide)).2.1,
    (hb.2 (by decide)).2.2⟩

/-- C9 counterexample: with live update enabled (each of the four parameter
signals connected once) and a model selected, editing three parameter fields
in immediate succession raises three aggregated options-changed events — one
per edited field — not exactly one for the batch. -/
theorem C9_counterexample :
    editFieldsEvents wireLive [0, 1, 2] = 3 ∧
    editFieldsEvents wireLive [0, 1, 2] ≠ 1 := by
  constructor <;> decide

/-- C9 (amended): with live update enabled (every edited signal connected
exactly once to the aggregating slot) and a model selected, a succession of
parameter-field edits raises exactly one aggregated options-changed event
per edited field — each carrying the full option set and each followed by
its own process trigger — so a batch of n edits raises n events, not one. -/
theorem C9_one_event_per_edit (st : WireState) (edits : List Nat)
    (hconn : ∀ s ∈ edits, st.connected.count s = 1)
    (hsel : st.model_selected = true) :
    editFieldsEvents st edits = edits.length := by
  induction edits with
  | nil => rfl
  | cons a as ih =>
    have ha := hconn a (List.mem_cons_self a as)
    have hrest : ∀ s ∈ as, st.connected.count s = 1 :=
      fun s hs => hconn s (List.mem_cons_of_mem a hs)
    have h1 : editFieldEvents st a = 1 := by simp [editFieldEvents, hsel, ha]
    show editFieldEvents st a + editFieldsEvents st as = as.length + 1
    rw [h1, ih hrest]
    omega

/-- C9 witness: three concrete edits under live update raise three
events. -/
theorem C9_witness : editFieldsEvents wireLive [1, 2, 3] = 3 :=
  C9_one_event_per_edit wireLive [1, 2, 3] (by decide) rfl

/-- C10: the fitting_options setter stores the assigned value exactly when
it is a FittingOptions instance or None; for any other value it raises
TypeError and the previously stored options are left unchanged. -/
theorem C10_setter_accepts_options_or_none (prev : Option FittingOptions)
    (v : PyValue) :
    fitting_options_setter prev v =
      (if isFittingOptionsInstanceOrNone v then storedOptionOf v else prev,
       if isFittingOptionsInstanceOrNone v then none else some "TypeError") := by
  cases v <;> rfl

end Fitter2
